import Mathlib

/-!
Verification of the control-plane core of the EFS CSI driver fork:
tag-string parser, per-filesystem GID allocator, volume-identifier codec,
access-point provisioner and directory provisioner.

Definitions are shallow embeddings of the Go source under `pkg/driver`
(`tag_parser.go`, `directory_provisioner.go` and the controller excerpt).
External collaborators (cloud client, mounter, os client) are modelled as
oracles supplied through an environment record, and every externally
visible side effect is recorded in an event trace.
-/

namespace EfsCsi

/-! ## Basic utilities -/

/-- Lookup in an association list, modelling Go `value, ok := m[key]`. -/
def lookupParam : List (String × String) → String → Option String
  | [], _ => none
  | (k, v) :: rest, key => if k = key then some v else lookupParam rest key

/-- Value of a list of decimal digit characters; `none` if empty or a
non-digit occurs.  Helper for `atoi`. -/
def digitsVal : List Char → Option Nat
  | [] => none
  | [c] => if c.isDigit then some (c.toNat - '0'.toNat) else none
  | c :: rest =>
    if c.isDigit then
      (digitsVal rest).map (fun n => (c.toNat - '0'.toNat) * 10 ^ rest.length + n)
    else none

/-- Model of Go `strconv.Atoi`: optional sign followed by at least one
decimal digit (machine-width overflow is not modelled; no claim depends
on it). -/
def atoi (s : String) : Option Int :=
  match s.data with
  | '-' :: rest => (digitsVal rest).map (fun n => -(n : Int))
  | '+' :: rest => (digitsVal rest).map (fun n => (n : Int))
  | l => (digitsVal l).map (fun n => (n : Int))

/-- Model of Go `strings.TrimSpace(value) == ""`: every character is
whitespace. -/
def isBlank (s : String) : Bool :=
  s.data.all fun c => c.isWhitespace

/-! ## Request-parameter and tag constants (from the driver's constants) -/

def FsId : String := "fileSystemId"
def Uid : String := "uid"
def Gid : String := "gid"
def GidMin : String := "gidRangeStart"
def GidMax : String := "gidRangeEnd"
def DirectoryPerms : String := "directoryPerms"
def BasePath : String := "basePath"
def AzName : String := "az"
def RoleArn : String := "awsRoleArn"
def MountTargetIp : String := "mounttargetip"
def DefaultTagKey : String := "efs.csi.aws.com/cluster"
def DefaultTagValue : String := "true"
def DefaultGidMin : Int := 50000
def DefaultGidMax : Int := 7000000
def TempMountPathPrefix : String := "/var/lib/csi/pv"

/-! ## Error taxonomy (gRPC status codes used by the provisioners) -/

inductive ProvErr where
  | invalidArgument (msg : String)
  | unauthenticated
  | alreadyExists
  | internal
  | rangeExhausted
  deriving DecidableEq, Repr

inductive CloudErr where
  | notFound
  | accessDenied
  | alreadyExists
  | other
  deriving DecidableEq, Repr

/-! ## Identity range allocator

Modelled from the spec: the `GidAllocator` implementation
(`getNextGid`/`releaseGid`) is not part of the provided sources; only its
call sites in `AccessPointProvisioner.Provision` are.  Per spec §4.2 the
allocator keeps one mutex-serialized ledger per filesystem id, `acquire`
returns the smallest free integer in `[min, max]` (failing with a
range-exhausted error when none is free) and `release` is an idempotent,
never-failing removal. -/

/-- Ledger: allocated integers per filesystem id. -/
def AllocState := List (String × List Int)

/-- Allocated set for one filesystem id (empty for an unknown id). -/
def lookupFs : AllocState → String → List Int
  | [], _ => []
  | (f, ids) :: rest, fsId => if f = fsId then ids else lookupFs rest fsId

/-- Replace (or lazily create) the ledger entry for one filesystem id. -/
def setFs : AllocState → String → List Int → AllocState
  | [], fsId, ids => [(fsId, ids)]
  | (f, l) :: rest, fsId, ids =>
    if f = fsId then (fsId, ids) :: rest else (f, l) :: setFs rest fsId ids

/-- Smallest integer not in `ids`, starting the scan at `lo`, trying at
most `fuel` consecutive candidates. -/
def findFree (ids : List Int) (lo : Int) : Nat → Option Int
  | 0 => none
  | fuel + 1 => if lo ∈ ids then findFree ids (lo + 1) fuel else some lo

/-- Modelled from the spec: `GidAllocator.getNextGid` returns the smallest
integer in `[gidMin, gidMax]` not currently allocated for `fsId` and marks
it allocated, or fails with a range-exhausted error. -/
def getNextGid (st : AllocState) (fsId : String) (gidMin gidMax : Int) :
    Except ProvErr (Int × AllocState) :=
  match findFree (lookupFs st fsId) gidMin (gidMax - gidMin + 1).toNat with
  | none => .error .rangeExhausted
  | some g => .ok (g, setFs st fsId (g :: lookupFs st fsId))

/-- Modelled from the spec: `GidAllocator.releaseGid` marks `g` free for
`fsId`; releasing an unallocated id is a benign no-op. -/
def releaseGid (st : AllocState) (fsId : String) (g : Int) : AllocState :=
  setFs st fsId ((lookupFs st fsId).filter (fun x => x ≠ g))

/-! ## Tag-string parser (from `tag_parser.go`) -/

/-- Character-level worker of `extractPairsFromRawString`: accumulate the
current token, toggling the `literal` flag at single quotes and splitting
at unquoted spaces.  Mirrors the Go loop including its append of the
(possibly empty) accumulator at every unquoted space and the final
append only when non-empty. -/
def extractPairsAux : List Char → List Char → Bool → List (List Char)
  | [], acc, _ => if acc ≠ [] then [acc] else []
  | c :: rest, acc, literal =>
    if c = '\'' then extractPairsAux rest (acc ++ [c]) (!literal)
    else if c = ' ' then
      if literal then extractPairsAux rest (acc ++ [c]) literal
      else acc :: extractPairsAux rest [] literal
    else extractPairsAux rest (acc ++ [c]) literal

/-- `extractPairsFromRawString`: tokenize on unquoted spaces. -/
def extractPairsFromRawString (raw : String) : List String :=
  (extractPairsAux raw.data [] false).map List.asString

/-- Key-scanning loop of `extractKeyAndValueFromRawPair`: returns the
accumulated key, the final `literal` flag and the index of the first
unquoted colon (`none` mirrors Go's `finalKeyIndex == -1`). -/
def scanKey : List Char → List Char → Bool → Nat → (List Char × Bool × Option Nat)
  | [], key, literal, _ => (key, literal, none)
  | c :: rest, key, literal, i =>
    if c = '\'' then scanKey rest key (!literal) (i + 1)
    else if c = ':' then
      if literal then scanKey rest (key ++ [c]) literal (i + 1)
      else (key, literal, some i)
    else scanKey rest (key ++ [c]) literal (i + 1)

/-- `extractKeyAndValueFromRawPair` on character lists: split the token at
the first unquoted colon; when no unquoted colon was found the Go code
slices `chars[finalKeyIndex+1:]` with `finalKeyIndex = -1`, i.e. the whole
token becomes the value.  One leading and then one trailing single quote
are stripped from the value. -/
def extractKVChars (pair : List Char) : Except String (List Char × List Char) :=
  let r := scanKey pair [] false 0
  if r.2.1 then .error "unmatched quotes in tag string"
  else if r.1 = [] then .error "cannot have empty key"
  else
    let idx : Nat := match r.2.2 with
      | some i => i + 1
      | none => 0
    let value := pair.drop idx
    let value := if value.head? = some '\'' then value.tail else value
    let value := if value.getLast? = some '\'' then value.dropLast else value
    .ok (r.1, value)

/-- `extractKeyAndValueFromRawPair` on strings. -/
def extractKeyAndValueFromRawPair (pair : String) : Except String (String × String) :=
  (extractKVChars pair.data).map fun kv => (kv.1.asString, kv.2.asString)

/-- Go map write `m[k] = v`: replace the binding if the key is present,
otherwise append it. -/
def insertTag (m : List (String × String)) (k v : String) : List (String × String) :=
  if m.any (fun p => p.1 = k) then
    m.map fun p => if p.1 = k then (k, v) else p
  else m ++ [(k, v)]

/-- `parseTagsFromStr`: empty input yields the empty mapping; tokens whose
key/value extraction fails are skipped, the rest are inserted. -/
def parseTagsFromStr (tagStr : String) : List (String × String) :=
  if tagStr = "" then []
  else
    (extractPairsFromRawString tagStr).foldl
      (fun m pair =>
        match extractKeyAndValueFromRawPair pair with
        | .error _ => m
        | .ok (k, v) => insertTag m k v)
      []

/-! ## Volume identifier codec

The encodings are taken from the source (`Provision` builds
`fileSystemId + "::" + accessPointId` in the access-point provisioner and
`fileSystemId + ":" + provisionedPath` in the directory provisioner).
The decoder `parseVolumeId` is not part of the provided sources (only its
call sites in the two `Delete` paths are); it is modelled from the spec. -/

/-- Access-point volume id form, from the access-point `Provision`. -/
def encodeApVolumeId (fileSystemId accessPointId : String) : String :=
  fileSystemId ++ "::" ++ accessPointId

/-- Directory volume id form, from the directory `Provision`. -/
def encodeDirVolumeId (fileSystemId subPath : String) : String :=
  fileSystemId ++ ":" ++ subPath

/-- Split at the first occurrence of `"::"`, if any. -/
def splitFirst2Colon : List Char → Option (List Char × List Char)
  | [] => none
  | c :: rest =>
    if c = ':' ∧ rest.head? = some ':' then some ([], rest.tail)
    else (splitFirst2Colon rest).map fun p => (c :: p.1, p.2)

/-- Split at the first occurrence of `':'`, if any. -/
def splitFirstColon : List Char → Option (List Char × List Char)
  | [] => none
  | c :: rest =>
    if c = ':' then some ([], rest)
    else (splitFirstColon rest).map fun p => (c :: p.1, p.2)

/-- Whether the list contains two adjacent colons. -/
def hasDoubleColon : List Char → Bool
  | [] => false
  | c :: rest => (c = ':' && rest.head? = some ':') || hasDoubleColon rest

/-- Modelled from the spec: `parseVolumeId` classifies the volume id by its
separator — the two-colon access-point form versus the one-colon directory
form — and extracts `(fileSystemId, subPath, accessPointId)`, leaving the
non-applicable fields empty. -/
def parseVolumeIdChars (s : List Char) : List Char × List Char × List Char :=
  match splitFirst2Colon s with
  | some (fs, ap) => (fs, [], ap)
  | none =>
    match splitFirstColon s with
    | some (fs, sub) => (fs, sub, [])
    | none => (s, [], [])

/-- Modelled from the spec: string-level `parseVolumeId`. -/
def parseVolumeId (s : String) : String × String × String :=
  let r := parseVolumeIdChars s.data
  (r.1.asString, r.2.1.asString, r.2.2.asString)

/-! ## Access-point provisioner (from the controller excerpt) -/

structure CreateVolumeRequest where
  name : String
  capacity : Int
  params : List (String × String)
  secrets : List (String × String)

structure AccessPointOptions where
  capacityGiB : Int
  fileSystemId : String
  uid : Int
  gid : Int
  directoryPerms : String
  directoryPath : String
  tags : List (String × String)
  deriving DecidableEq, Repr

structure Volume where
  capacityBytes : Int
  volumeId : String
  volumeContext : List (String × String)
  deriving DecidableEq, Repr

/-- Oracle for the external collaborators consumed by the access-point
provisioner: role-scoped cloud construction, `DescribeFileSystem`,
`CreateAccessPoint` and `DescribeMountTargets`. -/
structure APEnv where
  newCloudWithRoleOk : Bool
  describeFileSystem : String → Except CloudErr Unit
  createAccessPoint : String → AccessPointOptions → Except CloudErr String
  describeMountTargets : String → String → Except CloudErr String

/-- Externally visible events of one access-point `Provision` call. -/
inductive Event where
  | acquire (fsId : String) (gidMin gidMax g : Int)
  | release (fsId : String) (g : Int)
  | createAp (name : String) (opts : AccessPointOptions)
  deriving DecidableEq, Repr

/-- The uid validation branch: `-1` when the parameter is absent,
`InvalidArgument` when it does not parse or is negative. -/
def parseUid (params : List (String × String)) : Except ProvErr Int :=
  match lookupParam params Uid with
  | none => .ok (-1)
  | some v =>
    match atoi v with
    | none => .error (.invalidArgument "Failed to parse invalid uid")
    | some u =>
      if u < 0 then .error (.invalidArgument "uid must be greater or equal than 0")
      else .ok u

/-- The gid validation branch: `-1` when the parameter is absent,
`InvalidArgument` when it does not parse.  The range check mirrors the
source exactly: it tests the variable holding the **uid** (`if uid < 0`),
not the freshly parsed gid. -/
def parseGid (params : List (String × String)) (uid : Int) : Except ProvErr Int :=
  match lookupParam params Gid with
  | none => .ok (-1)
  | some v =>
    match atoi v with
    | none => .error (.invalidArgument "Failed to parse invalid gid")
    | some g =>
      if uid < 0 then .error (.invalidArgument "gid must be greater or equal than 0")
      else .ok g

/-- The gid-range validation: both-or-neither of `gidRangeStart` and
`gidRangeEnd`, start positive, end strictly greater; defaults fill in when
neither is supplied. -/
def parseGidRange (params : List (String × String)) : Except ProvErr (Int × Int) :=
  match
    (match lookupParam params GidMin with
     | none => .ok 0
     | some v =>
       match atoi v with
       | none => .error (.invalidArgument "Failed to parse invalid gidRangeStart")
       | some m =>
         if m ≤ 0 then .error (.invalidArgument "gidRangeStart must be greater than 0")
         else .ok m : Except ProvErr Int)
  with
  | .error e => .error e
  | .ok gidMin =>
    match
      (match lookupParam params GidMax with
       | some v =>
         if gidMin = 0 then .error (.invalidArgument "Missing gidRangeStart parameter")
         else
           match atoi v with
           | none => .error (.invalidArgument "Failed to parse invalid gidRangeEnd")
           | some M =>
             if M ≤ gidMin then
               .error (.invalidArgument "gidRangeEnd must be greater than gidRangeStart")
             else .ok M
       | none =>
         if gidMin ≠ 0 then .error (.invalidArgument "Missing gidRangeEnd parameter")
         else .ok 0 : Except ProvErr Int)
    with
    | .error e => .error e
    | .ok gidMax =>
      if gidMin = 0 ∧ gidMax = 0 then .ok (DefaultGidMin, DefaultGidMax)
      else .ok (gidMin, gidMax)

/-- `getCloud`: read the role ARN from the secrets; a non-empty role uses a
freshly constructed role-scoped cloud client, whose construction may fail
with `Unauthenticated`. -/
def getCloudRole (secrets : List (String × String)) (newCloudWithRoleOk : Bool) :
    Except ProvErr String :=
  let roleArn := (lookupParam secrets RoleArn).getD ""
  if roleArn ≠ "" && !newCloudWithRoleOk then .error .unauthenticated
  else .ok roleArn

/-- Error mapping of the `DescribeFileSystem` call site. -/
def mapDescribeErr : CloudErr → ProvErr
  | .accessDenied => .unauthenticated
  | .notFound => .invalidArgument "File System does not exist"
  | _ => .internal

/-- Error mapping of the `CreateAccessPoint` call site. -/
def mapCreateErr : CloudErr → ProvErr
  | .accessDenied => .unauthenticated
  | .alreadyExists => .alreadyExists
  | _ => .internal

/-- Go map merge of the default tag with the provisioner's configured
tags (configured tags override by key). -/
def mergeTags (base extra : List (String × String)) : List (String × String) :=
  extra.foldl (fun m p => insertTag m p.1 p.2) base

/-- `AccessPointProvisioner.Provision`: validation, credential resolution,
filesystem describe, identity allocation when uid or gid is missing,
remote access-point creation with identity release on failure, optional
cross-account mount-target resolution, and volume-id encoding.  Returns
the result, the allocator state after the call and the event trace. -/
def provision (ptags : List (String × String)) (env : APEnv) (st : AllocState)
    (req : CreateVolumeRequest) :
    Except ProvErr Volume × AllocState × List Event :=
  if req.name = "" then
    (.error (.invalidArgument "Volume name not provided"), st, [])
  else
    let tags := mergeTags [(DefaultTagKey, DefaultTagValue)] ptags
    match lookupParam req.params FsId with
    | none => (.error (.invalidArgument "Missing fileSystemId parameter"), st, [])
    | some fsv =>
      if isBlank fsv then
        (.error (.invalidArgument "Parameter fileSystemId cannot be empty"), st, [])
      else
        match parseUid req.params with
        | .error e => (.error e, st, [])
        | .ok uid0 =>
          match parseGid req.params uid0 with
          | .error e => (.error e, st, [])
          | .ok gid0 =>
            match parseGidRange req.params with
            | .error e => (.error e, st, [])
            | .ok (gidMin, gidMax) =>
              let dirPerms := (lookupParam req.params DirectoryPerms).getD ""
              let basePath := (lookupParam req.params BasePath).getD ""
              let azName := (lookupParam req.params AzName).getD ""
              match getCloudRole req.secrets env.newCloudWithRoleOk with
              | .error e => (.error e, st, [])
              | .ok roleArn =>
                match env.describeFileSystem fsv with
                | .error ce => (.error (mapDescribeErr ce), st, [])
                | .ok _ =>
                  match
                    (if uid0 = -1 ∨ gid0 = -1 then
                      match getNextGid st fsv gidMin gidMax with
                      | .error e => .error e
                      | .ok (g, st1) => .ok (g, st1, [Event.acquire fsv gidMin gidMax g])
                    else .ok (0, st, []) :
                      Except ProvErr (Int × AllocState × List Event))
                  with
                  | .error e => (.error e, st, [])
                  | .ok (allocatedGid, st1, ev1) =>
                    let uid := if uid0 = -1 then allocatedGid else uid0
                    let gid := if gid0 = -1 then allocatedGid else gid0
                    let rootDir := basePath ++ "/" ++ req.name
                    let opts : AccessPointOptions :=
                      { capacityGiB := req.capacity, fileSystemId := fsv, uid, gid,
                        directoryPerms := dirPerms, directoryPath := rootDir, tags }
                    match env.createAccessPoint req.name opts with
                    | .error ce =>
                      (.error (mapCreateErr ce), releaseGid st1 fsv gid,
                        ev1 ++ [Event.createAp req.name opts, Event.release fsv gid])
                    | .ok apId =>
                      let ctx :=
                        if roleArn ≠ "" then
                          match env.describeMountTargets fsv azName with
                          | .ok ip => [(MountTargetIp, ip)]
                          | .error _ => []
                        else []
                      (.ok { capacityBytes := req.capacity,
                             volumeId := encodeApVolumeId fsv apId,
                             volumeContext := ctx }, st1,
                        ev1 ++ [Event.createAp req.name opts])

/-! ## Directory provisioner (from `directory_provisioner.go`) -/

/-- Model of Go `strconv.ParseUint(value, 8, 32)`: at least one octal
digit, value below `2^32`. -/
def octalVal : List Char → Option Nat
  | [] => none
  | [c] => if '0' ≤ c ∧ c ≤ '7' then some (c.toNat - '0'.toNat) else none
  | c :: rest =>
    if '0' ≤ c ∧ c ≤ '7' then
      (octalVal rest).map fun n => (c.toNat - '0'.toNat) * 8 ^ rest.length + n
    else none

def parseOctalPerm (s : String) : Option Nat :=
  match octalVal s.data with
  | some n => if n < 2 ^ 32 then some n else none
  | none => none

/-- Requested directory permissions: malformed octal strings are silently
ignored, falling back to the `0755` default. -/
def resolvePerms (params : List (String × String)) : Nat :=
  match lookupParam params DirectoryPerms with
  | none => 0o755
  | some v => (parseOctalPerm v).getD 0o755

/-- Go `path.Join(target, provisionedPath)` up to lexical cleaning, which
no claim depends on (both arguments here are slash-separated absolute
segments). -/
def pathJoin (a b : String) : String := a ++ "/" ++ b

/-- Oracle for the directory provisioner's collaborators.  Each mounter
and os-client call is a function of its path argument returning success
or failure; `mountOptionsResult` stands for the `getMountOptions` helper
(credential/mount-option resolution, not in the provided sources,
modelled from the spec as an opaque fallible step); `uuid` is the fresh
unique name used for the temporary mount-point. -/
structure DirEnv where
  roleCloudOk : Bool
  mountOptionsResult : Except ProvErr (List String)
  uuid : String
  makeDirOk : String → Bool
  mountOk : String → String → Bool
  mkdirAllOk : String → Bool
  unmountOk : String → Bool
  removeAllOk : String → Bool

/-- Externally visible mounter / os-client events. -/
inductive DirEvent where
  | makeDir (path : String)
  | mount (fsId path : String)
  | mkdirAll (path : String) (perms : Nat) (uid gid : Int)
  | unmount (path : String)
  | removeAll (path : String)
  | remove (path : String)
  deriving DecidableEq, Repr

/-- `DirectoryProvisioner.Provision`: validate the filesystem id, resolve
credentials and mount options, create and mount a fresh temporary
mount-point, create the provisioned directory under it, then unmount and
remove the mount-point, returning the directory-form volume id.  The
result is paired with the trace of mounter / os-client calls. -/
def dirProvision (env : DirEnv) (req : CreateVolumeRequest) (uid gid : Int) :
    Except ProvErr Volume × List DirEvent :=
  match lookupParam req.params FsId with
  | none => (.error (.invalidArgument "Missing fileSystemId parameter"), [])
  | some fsv =>
    if isBlank fsv then
      (.error (.invalidArgument "Parameter fileSystemId cannot be empty"), [])
    else
      match getCloudRole req.secrets env.roleCloudOk with
      | .error e => (.error e, [])
      | .ok _ =>
        match env.mountOptionsResult with
        | .error e => (.error e, [])
        | .ok _ =>
          let target := TempMountPathPrefix ++ "/" ++ env.uuid
          if env.makeDirOk target = false then
            (.error .internal, [DirEvent.makeDir target])
          else if env.mountOk fsv target then
            let basePath := (lookupParam req.params BasePath).getD ""
            let provisionedPath := basePath ++ "/" ++ req.name
            let perms := resolvePerms req.params
            let provisionedDirectory := pathJoin target provisionedPath
            if env.mkdirAllOk provisionedDirectory = false then
              (.error .internal,
                [DirEvent.makeDir target, DirEvent.mount fsv target,
                 DirEvent.mkdirAll provisionedDirectory perms uid gid])
            else if env.unmountOk target = false then
              (.error .internal,
                [DirEvent.makeDir target, DirEvent.mount fsv target,
                 DirEvent.mkdirAll provisionedDirectory perms uid gid,
                 DirEvent.unmount target])
            else if env.removeAllOk target = false then
              (.error .internal,
                [DirEvent.makeDir target, DirEvent.mount fsv target,
                 DirEvent.mkdirAll provisionedDirectory perms uid gid,
                 DirEvent.unmount target, DirEvent.removeAll target])
            else
              (.ok { capacityBytes := req.capacity,
                     volumeId := encodeDirVolumeId fsv provisionedPath,
                     volumeContext := [] },
                [DirEvent.makeDir target, DirEvent.mount fsv target,
                 DirEvent.mkdirAll provisionedDirectory perms uid gid,
                 DirEvent.unmount target, DirEvent.removeAll target])
          else
            (.error .internal, [DirEvent.makeDir target, DirEvent.mount fsv target])

/-- `DirectoryProvisioner.Delete`: a no-op when configured to retain
provisioned directories; otherwise decode the volume id, make and mount a
fresh temporary mount-point, recursively remove the directory at
`target + subPath`, with two deferred cleanups — `RemoveAll(target)` then
`Unmount(target)` — running on every exit path past the `MakeDir`, each
overwriting the returned error when it fails. -/
def dirDelete (deleteProvisionedDir : Bool) (env : DirEnv)
    (volumeId : String) (secrets : List (String × String)) :
    Except ProvErr Unit × List DirEvent :=
  if deleteProvisionedDir = false then (.ok (), [])
  else
    let fsv := (parseVolumeId volumeId).1
    let subpath := (parseVolumeId volumeId).2.1
    match getCloudRole secrets env.roleCloudOk with
    | .error e => (.error e, [])
    | .ok _ =>
      match env.mountOptionsResult with
      | .error e => (.error e, [])
      | .ok _ =>
        let target := TempMountPathPrefix ++ "/" ++ env.uuid
        if env.makeDirOk target = false then
          (.error .internal, [DirEvent.makeDir target])
        else
          let body : Except ProvErr Unit × List DirEvent :=
            if env.mountOk fsv target = false then
              (.error .internal, [DirEvent.mount fsv target, DirEvent.remove target])
            else if env.removeAllOk (target ++ subpath) = false then
              (.error .internal,
                [DirEvent.mount fsv target, DirEvent.removeAll (target ++ subpath)])
            else
              (.ok (), [DirEvent.mount fsv target, DirEvent.removeAll (target ++ subpath)])
          let afterRemove : Except ProvErr Unit :=
            if env.removeAllOk target = false then .error .internal else body.1
          let final : Except ProvErr Unit :=
            if env.unmountOk target = false then .error .internal else afterRemove
          (final,
            DirEvent.makeDir target :: body.2 ++
              [DirEvent.removeAll target, DirEvent.unmount target])

/-! ## Allocator operation sequences (for the ledger invariant) -/

/-- One serialized ledger operation for a fixed filesystem id and range:
the mutex in the allocator serializes concurrent calls, so any concurrent
execution is one of these sequences. -/
inductive AllocOp where
  | acquire
  | release (g : Int)

/-- Run a sequence of serialized allocator operations for one filesystem
id and range (a failed acquire leaves the ledger unchanged). -/
def runOps (fsId : String) (gidMin gidMax : Int) : List AllocOp → AllocState → AllocState
  | [], st => st
  | AllocOp.acquire :: rest, st =>
    match getNextGid st fsId gidMin gidMax with
    | .ok (_, st') => runOps fsId gidMin gidMax rest st'
    | .error _ => runOps fsId gidMin gidMax rest st
  | AllocOp.release g :: rest, st =>
    runOps fsId gidMin gidMax rest (releaseGid st fsId g)

/-- The acquire events of a trace. -/
def acquireEvents (evs : List Event) : List Event :=
  evs.filter fun e =>
    match e with
    | Event.acquire _ _ _ _ => true
    | _ => false

/-! ## Concrete fixtures used by the evaluation theorems and witnesses -/

/-- Cloud oracle where every remote call succeeds. -/
def envOk : APEnv :=
  { newCloudWithRoleOk := true,
    describeFileSystem := fun _ => .ok (),
    createAccessPoint := fun _ _ => .ok "fsap-123",
    describeMountTargets := fun _ _ => .ok "10.0.0.1" }

/-- Cloud oracle where `CreateAccessPoint` fails. -/
def envCreateFail : APEnv :=
  { newCloudWithRoleOk := true,
    describeFileSystem := fun _ => .ok (),
    createAccessPoint := fun _ _ => .error .other,
    describeMountTargets := fun _ _ => .ok "10.0.0.1" }

/-- Request supplying a valid gid but no uid. -/
def reqGidOnly : CreateVolumeRequest :=
  { name := "vol", capacity := 0,
    params := [(FsId, "fs-1"), (Gid, "5")], secrets := [] }

/-- Request supplying a non-negative uid and a negative gid. -/
def reqUidNegGid : CreateVolumeRequest :=
  { name := "vol", capacity := 0,
    params := [(FsId, "fs-1"), (Uid, "0"), (Gid, "-5")], secrets := [] }

/-- Request supplying neither uid nor gid, with an explicit range. -/
def reqMissingBoth : CreateVolumeRequest :=
  { name := "vol", capacity := 0,
    params := [(FsId, "fs-1"), (GidMin, "1000"), (GidMax, "2000")], secrets := [] }

/-- Request supplying a uid but no gid, with an explicit range. -/
def reqUidOnly : CreateVolumeRequest :=
  { name := "vol", capacity := 0,
    params := [(FsId, "fs-1"), (Uid, "77"), (GidMin, "1000"), (GidMax, "2000")],
    secrets := [] }

/-- Directory-provisioner request. -/
def dirReq : CreateVolumeRequest :=
  { name := "newDir", capacity := 0,
    params := [(FsId, "fs-1"), (BasePath, "/dynamic")], secrets := [] }

/-- Mounter / os-client oracle where everything succeeds. -/
def dirEnvOk : DirEnv :=
  { roleCloudOk := true, mountOptionsResult := .ok [], uuid := "tmp",
    makeDirOk := fun _ => true, mountOk := fun _ _ => true,
    mkdirAllOk := fun _ => true, unmountOk := fun _ => true,
    removeAllOk := fun _ => true }

/-- Oracle where the directory-creation step fails (everything else
succeeds). -/
def dirEnvMkdirFail : DirEnv :=
  { dirEnvOk with mkdirAllOk := fun _ => false }

/-- Oracle where the recursive removal of the provisioned directory under
the temporary mount fails, while removal of the mount-point itself
succeeds. -/
def dirEnvRmSubFail : DirEnv :=
  { dirEnvOk with removeAllOk := fun p => p = TempMountPathPrefix ++ "/" ++ "tmp" }

/-! ## Helper lemmas: volume identifier codec -/

theorem splitFirst2Colon_append (l r : List Char) (h : ':' ∉ l) :
    splitFirst2Colon (l ++ r) = (splitFirst2Colon r).map fun p => (l ++ p.1, p.2) := by
  induction l with
  | nil =>
    simp only [List.nil_append]
    cases splitFirst2Colon r <;> simp
  | cons c l ih =>
    have hc : c ≠ ':' := fun hcc => h (hcc ▸ List.mem_cons_self c l)
    have h' : ':' ∉ l := fun hm => h (List.mem_cons_of_mem c hm)
    simp only [List.cons_append, splitFirst2Colon]
    rw [if_neg (by simp [hc]), List.append_eq, ih h']
    cases splitFirst2Colon r <;> simp

theorem splitFirstColon_append (l r : List Char) (h : ':' ∉ l) :
    splitFirstColon (l ++ r) = (splitFirstColon r).map fun p => (l ++ p.1, p.2) := by
  induction l with
  | nil =>
    simp only [List.nil_append]
    cases splitFirstColon r <;> simp
  | cons c l ih =>
    have hc : c ≠ ':' := fun hcc => h (hcc ▸ List.mem_cons_self c l)
    have h' : ':' ∉ l := fun hm => h (List.mem_cons_of_mem c hm)
    simp only [List.cons_append, splitFirstColon]
    rw [if_neg hc, List.append_eq, ih h']
    cases splitFirstColon r <;> simp

theorem splitFirst2Colon_eq_none (l : List Char) (h : hasDoubleColon l = false) :
    splitFirst2Colon l = none := by
  induction l with
  | nil => rfl
  | cons c rest ih =>
    simp only [hasDoubleColon, Bool.or_eq_false_iff] at h
    have hcond : ¬(c = ':' ∧ rest.head? = some ':') := by
      intro hcc
      have h1 := h.1
      simp [hcc.1, hcc.2] at h1
    simp only [splitFirst2Colon]
    rw [if_neg hcond, ih h.2]
    rfl

theorem asString_data (s : String) : s.data.asString = s :=
  String.asString_toList s

/-! ## Helper lemmas: identity allocator -/

theorem lookupFs_setFs (st : AllocState) (f : String) (ids : List Int) :
    lookupFs (setFs st f ids) f = ids := by
  induction st with
  | nil => simp [setFs, lookupFs]
  | cons p rest ih =>
    by_cases h : p.1 = f
    · simp [setFs, lookupFs, h]
    · cases p with
      | mk a b => simp only at h; simp [setFs, lookupFs, h, ih]

theorem findFree_some {ids : List Int} {lo g : Int} {fuel : Nat}
    (h : findFree ids lo fuel = some g) :
    g ∉ ids ∧ lo ≤ g ∧ g < lo + fuel := by
  induction fuel generalizing lo with
  | zero => simp [findFree] at h
  | succ n ih =>
    rw [findFree] at h
    by_cases hmem : lo ∈ ids
    · rw [if_pos hmem] at h
      obtain ⟨h1, h2, h3⟩ := ih h
      exact ⟨h1, by omega, by omega⟩
    · rw [if_neg hmem] at h
      cases h
      exact ⟨hmem, le_refl _, by omega⟩

theorem getNextGid_ok {st : AllocState} {f : String} {a b g : Int} {st' : AllocState}
    (h : getNextGid st f a b = .ok (g, st')) :
    g ∉ lookupFs st f ∧ st' = setFs st f (g :: lookupFs st f) ∧ a ≤ g ∧ g ≤ b := by
  rw [getNextGid] at h
  cases hf : findFree (lookupFs st f) a (b - a + 1).toNat with
  | none => rw [hf] at h; exact absurd h (by simp)
  | some g' =>
    rw [hf] at h
    cases h
    obtain ⟨h1, h2, h3⟩ := findFree_some hf
    refine ⟨h1, rfl, h2, ?_⟩
    have hfuel : (0 : Nat) < (b - a + 1).toNat := by
      by_contra hc
      push_neg at hc
      interval_cases hn : (b - a + 1).toNat
      simp [findFree] at hf
    have : ((b - a + 1).toNat : Int) = b - a + 1 := Int.toNat_of_nonneg (by omega)
    omega

theorem release_after_acquire {st : AllocState} {f : String} {a b g : Int}
    {st1 : AllocState} (h : getNextGid st f a b = .ok (g, st1)) :
    lookupFs (releaseGid st1 f g) f = lookupFs st f := by
  obtain ⟨hnm, hst, _, _⟩ := getNextGid_ok h
  subst hst
  rw [releaseGid, lookupFs_setFs, lookupFs_setFs]
  have hstep : (g :: lookupFs st f).filter (fun x => x ≠ g) =
      (lookupFs st f).filter (fun x => x ≠ g) := by
    simp [List.filter_cons]
  rw [hstep]
  apply List.filter_eq_self.mpr
  intro x hx
  have hxg : x ≠ g := fun hxe => hnm (by rwa [hxe] at hx)
  simp [hxg]

theorem getNextGid_same_of_lookup_eq {st st' : AllocState} {f : String} {a b g : Int}
    {st1 : AllocState} (hl : lookupFs st' f = lookupFs st f)
    (h : getNextGid st f a b = .ok (g, st1)) :
    ∃ st2, getNextGid st' f a b = .ok (g, st2) := by
  rw [getNextGid] at h ⊢
  rw [hl]
  cases hf : findFree (lookupFs st f) a (b - a + 1).toNat with
  | none => rw [hf] at h; exact absurd h (by simp)
  | some g' =>
    rw [hf] at h
    cases h
    exact ⟨_, rfl⟩

/-! ## Helper lemmas: tag parser -/

theorem scanKey_clean (t : List Char) : ∀ (key : List Char) (lit : Bool) (i : Nat),
    (∀ c ∈ t, c ≠ ':' ∧ c ≠ '\'') →
    scanKey t key lit i = (key ++ t, lit, none) := by
  induction t with
  | nil => intro key lit i _; simp [scanKey]
  | cons c rest ih =>
    intro key lit i h
    have hc := h c (List.mem_cons_self c rest)
    rw [scanKey, if_neg hc.2, if_neg hc.1,
      ih _ _ _ (fun d hd => h d (List.mem_cons_of_mem c hd))]
    simp

theorem extractKVChars_no_colon (t : List Char) (hne : t ≠ [])
    (h : ∀ c ∈ t, c ≠ ':' ∧ c ≠ '\'') :
    extractKVChars t = .ok (t, t) := by
  have hhead : ¬ t.head? = some '\'' := by
    cases t with
    | nil => simp
    | cons c rest =>
      simp only [List.head?_cons, Option.some.injEq]
      exact (h c (List.mem_cons_self c rest)).2
  have hlast : ¬ t.getLast? = some '\'' := by
    intro hl
    have hmem : '\'' ∈ t := List.mem_of_mem_getLast? (by rw [hl]; rfl)
    exact (h _ hmem).2 rfl
  simp [extractKVChars, scanKey_clean t [] false 0 h, hne, hhead, hlast]

/-- Ledger invariant: running any serialized operation sequence preserves
duplicate-freeness and the range bound of the held set. -/
theorem runOps_inv (f : String) (gmin gmax : Int) (ops : List AllocOp) :
    ∀ st : AllocState,
    (lookupFs st f).Nodup →
    (∀ x ∈ lookupFs st f, gmin ≤ x ∧ x ≤ gmax) →
    (lookupFs (runOps f gmin gmax ops st) f).Nodup ∧
    ∀ x ∈ lookupFs (runOps f gmin gmax ops st) f, gmin ≤ x ∧ x ≤ gmax := by
  induction ops with
  | nil => intro st h1 h2; exact ⟨h1, h2⟩
  | cons op rest ih =>
    intro st h1 h2
    cases op with
    | acquire =>
      cases hg : getNextGid st f gmin gmax with
      | error e =>
        simp only [runOps, hg]
        exact ih st h1 h2
      | ok p =>
        obtain ⟨g, st'⟩ := p
        obtain ⟨hnm, hst, hge, hle⟩ := getNextGid_ok hg
        simp only [runOps, hg]
        subst hst
        apply ih
        · rw [lookupFs_setFs]
          exact List.nodup_cons.mpr ⟨hnm, h1⟩
        · rw [lookupFs_setFs]
          intro x hx
          rcases List.mem_cons.mp hx with hx | hx
          · subst hx; exact ⟨hge, hle⟩
          · exact h2 x hx
    | release gg =>
      simp only [runOps]
      apply ih
      · rw [releaseGid, lookupFs_setFs]
        exact h1.filter _
      · rw [releaseGid, lookupFs_setFs]
        intro x hx
        exact h2 x (List.mem_of_mem_filter hx)

/-! ## Claim theorems -/

/-- C7: the volume identifier codec round-trips both encodings — encoding
`(filesystemId, accessPointId)` as `filesystemId ++ "::" ++ accessPointId`
and decoding yields the same filesystem id and access-point id with an
empty subPath, and encoding `(filesystemId, subPath)` as
`filesystemId ++ ":" ++ subPath` and decoding yields the same filesystem
id and subPath with an empty access-point id, for well-formed ids (a
colon-free filesystem id, a subPath not starting with a colon and without
two adjacent colons). -/
theorem c7_volume_id_roundtrip :
    (∀ fs ap : String, ':' ∉ fs.data →
      parseVolumeId (encodeApVolumeId fs ap) = (fs, "", ap)) ∧
    (∀ fs sub : String, ':' ∉ fs.data →
      ¬ sub.data.head? = some ':' →
      hasDoubleColon sub.data = false →
      parseVolumeId (encodeDirVolumeId fs sub) = (fs, sub, "")) := by
  constructor
  · intro fs ap hfs
    have hdata : (encodeApVolumeId fs ap).data = fs.data ++ (':' :: ':' :: ap.data) := by
      rw [encodeApVolumeId, String.data_append, String.data_append]
      simp
    rw [parseVolumeId, hdata, parseVolumeIdChars,
      splitFirst2Colon_append _ _ hfs, splitFirst2Colon]
    rw [if_pos (by simp)]
    simp [asString_data, String.asString_nil]
  · intro fs sub hfs hhead hdc
    have hdata : (encodeDirVolumeId fs sub).data = fs.data ++ (':' :: sub.data) := by
      rw [encodeDirVolumeId, String.data_append, String.data_append]
      simp
    have h2 : splitFirst2Colon (fs.data ++ (':' :: sub.data)) = none := by
      rw [splitFirst2Colon_append _ _ hfs, splitFirst2Colon]
      rw [if_neg (by simp [hhead]), splitFirst2Colon_eq_none sub.data hdc]
      rfl
    have h1 : splitFirstColon (fs.data ++ (':' :: sub.data)) =
        some (fs.data, sub.data) := by
      rw [splitFirstColon_append _ _ hfs, splitFirstColon]
      rw [if_pos rfl]
      simp
    rw [parseVolumeId, hdata, parseVolumeIdChars, h2, h1]
    simp [asString_data, String.asString_nil]

/-- C7 witness: the round trip at the spec's concrete examples
`(fs-1, fsap-9)` and `(fs-1, /dynamic/vol)`. -/
theorem c7_volume_id_roundtrip_witness :
    parseVolumeId (encodeApVolumeId "fs-1" "fsap-9") = ("fs-1", "", "fsap-9") ∧
    parseVolumeId (encodeDirVolumeId "fs-1" "/dynamic/vol") =
      ("fs-1", "/dynamic/vol", "") :=
  ⟨c7_volume_id_roundtrip.1 "fs-1" "fsap-9" (by decide),
   c7_volume_id_roundtrip.2 "fs-1" "/dynamic/vol" (by decide) (by decide) (by decide)⟩

/-- C8 counterexample: the whitespace-delimited token `"novalue"` has no
unquoted colon, yet the parser maps it to itself instead of skipping it —
`parse("a:b novalue")` contains the entry `novalue ↦ novalue`, refuting
the claim that such a token contributes no entry. -/
theorem c8_counterexample :
    parseTagsFromStr "a:b novalue" = [("a", "b"), ("novalue", "novalue")] := by
  decide

/-- C8 (amended): a whitespace-delimited token containing no colon and no
quote character is mapped to itself (the Go code slices the value at
`finalKeyIndex = -1`, so the whole token becomes both key and value);
other well-formed `key:value` tokens in the same string are still
parsed. -/
theorem c8_no_colon_token :
    (∀ t : List Char, t ≠ [] → (∀ c ∈ t, c ≠ ':' ∧ c ≠ '\'') →
      extractKVChars t = .ok (t, t)) ∧
    lookupParam (parseTagsFromStr "a:b novalue") "a" = some "b" ∧
    lookupParam (parseTagsFromStr "a:b novalue") "novalue" = some "novalue" :=
  ⟨extractKVChars_no_colon, by decide, by decide⟩

/-- C8 witness: the general token law at the concrete token `"novalue"`. -/
theorem c8_no_colon_token_witness :
    extractKVChars "novalue".data = .ok ("novalue".data, "novalue".data) :=
  c8_no_colon_token.1 "novalue".data (by decide) (by decide)

/-- C9 counterexample: on `"a:'x y':b:c"` the parser does not return
`{a ↦ "x y", b ↦ "c"}` — the whole quoted-and-suffixed remainder becomes
the value of `a` and there is no `b` entry. -/
theorem c9_counterexample :
    lookupParam (parseTagsFromStr "a:'x y':b:c") "a" = some "x y':b:c" ∧
    lookupParam (parseTagsFromStr "a:'x y':b:c") "b" = none := by
  decide

/-- C9 (amended): the quoted span keeps the space inside a single token
and the quoted colon is not a separator, but the token is split only at
its first unquoted colon, so `parse("a:'x y':b:c")` is the one-entry
mapping `{a ↦ "x y':b:c"}` (with the one leading quote stripped and no
trailing quote to strip). -/
theorem c9_quoted_token_eval :
    parseTagsFromStr "a:'x y':b:c" = [("a", "x y':b:c")] := by
  decide

/-- C1: evaluation of the code at the failing input.  A request supplying
`gid = "5"` (a valid non-negative integer) and no uid is rejected with the
gid-range `InvalidArgument` error, because the gid validation branch tests
the variable holding the uid (still at its `-1` sentinel); conversely a
request supplying `uid = "0"` together with the negative `gid = "-5"`
passes validation and the whole call succeeds. -/
theorem c1_gid_validation_eval :
    (provision [] envOk [] reqGidOnly).1 =
      .error (.invalidArgument "gid must be greater or equal than 0") ∧
    (provision [] envOk [] reqUidNegGid).1 =
      .ok { capacityBytes := 0, volumeId := "fs-1::fsap-123", volumeContext := [] } :=
  ⟨rfl, rfl⟩

/-- C10: for every request whose parameters include a gid that parses to a
non-negative integer but no uid, `Provision` returns the gid-validation
`InvalidArgument` error (the uid variable keeps its `-1` sentinel and the
gid branch tests the uid variable); conversely a non-negative uid together
with a gid parsing to a negative integer passes the gid validation
step. -/
theorem c10_gid_branch_tests_uid :
    (∀ (ptags : List (String × String)) (env : APEnv) (st : AllocState)
        (req : CreateVolumeRequest) (fsv gstr : String) (g : Int),
      ¬ req.name = "" →
      lookupParam req.params FsId = some fsv →
      isBlank fsv = false →
      lookupParam req.params Uid = none →
      lookupParam req.params Gid = some gstr →
      atoi gstr = some g → 0 ≤ g →
      (provision ptags env st req).1 =
        .error (.invalidArgument "gid must be greater or equal than 0")) ∧
    (∀ (params : List (String × String)) (u : Int) (gstr : String) (g : Int),
      lookupParam params Gid = some gstr →
      atoi gstr = some g → g < 0 → 0 ≤ u →
      parseGid params u = .ok g) := by
  constructor
  · intro ptags env st req fsv gstr g hname hfs hblank huid hgid hatoi _
    have hpuid : parseUid req.params = .ok (-1) := by
      rw [parseUid, huid]
    have hpgid : parseGid req.params (-1) =
        .error (.invalidArgument "gid must be greater or equal than 0") := by
      simp only [parseGid, hgid, hatoi]
      norm_num
    simp [provision, hname, hfs, hblank, hpuid, hpgid]
  · intro params u gstr g hgid hatoi _ hu
    simp only [parseGid, hgid, hatoi]
    rw [if_neg (by omega)]

/-- C10 witness: the general law at the concrete inputs — `gid = "5"`
without uid is rejected, and `gid = "-7"` with uid `3` passes the gid
validation step. -/
theorem c10_gid_branch_tests_uid_witness :
    (provision [] envOk [] reqGidOnly).1 =
      .error (.invalidArgument "gid must be greater or equal than 0") ∧
    parseGid [(Gid, "-7")] 3 = .ok (-7) :=
  ⟨c10_gid_branch_tests_uid.1 [] envOk [] reqGidOnly "fs-1" "5" 5
      (by decide) (by decide) (by decide) (by decide) (by decide) (by decide) (by decide),
   c10_gid_branch_tests_uid.2 [(Gid, "-7")] 3 "-7" (-7)
      (by decide) (by decide) (by decide) (by decide)⟩

/-- C2: if the remote `CreateAccessPoint` call fails after an identity was
allocated, a release of that identity is performed before the error is
returned, and a subsequent acquire on the returned allocator state for the
same filesystem and range yields the same id again. -/
theorem c2_release_on_create_failure
    (ptags : List (String × String)) (env : APEnv) (st : AllocState)
    (req : CreateVolumeRequest) (fsv roleArn : String) (u gmin gmax g : Int)
    (st1 : AllocState) (ce : CloudErr)
    (hname : ¬ req.name = "")
    (hfs : lookupParam req.params FsId = some fsv)
    (hblank : isBlank fsv = false)
    (hpuid : parseUid req.params = .ok u)
    (hpgid : parseGid req.params u = .ok (-1))
    (hrange : parseGidRange req.params = .ok (gmin, gmax))
    (hcloud : getCloudRole req.secrets env.newCloudWithRoleOk = .ok roleArn)
    (hdesc : env.describeFileSystem fsv = .ok ())
    (halloc : getNextGid st fsv gmin gmax = .ok (g, st1))
    (hcreate : ∀ n o, env.createAccessPoint n o = .error ce) :
    (provision ptags env st req).1 = .error (mapCreateErr ce) ∧
    Event.release fsv g ∈ (provision ptags env st req).2.2 ∧
    ∃ st2, getNextGid (provision ptags env st req).2.1 fsv gmin gmax = .ok (g, st2) := by
  simp [provision, hname, hfs, hblank, hpuid, hpgid, hrange, hcloud, hdesc, halloc,
    hcreate]
  exact getNextGid_same_of_lookup_eq (release_after_acquire halloc) halloc

/-- C2 witness: with a failing `CreateAccessPoint`, the call on a fresh
ledger with range `[1000, 2000]` allocates `1000`, releases it, and the
returned ledger hands out `1000` again. -/
theorem c2_release_on_create_failure_witness :
    (provision [] envCreateFail [] reqMissingBoth).1 = .error (mapCreateErr .other) ∧
    Event.release "fs-1" 1000 ∈ (provision [] envCreateFail [] reqMissingBoth).2.2 ∧
    ∃ st2, getNextGid (provision [] envCreateFail [] reqMissingBoth).2.1
      "fs-1" 1000 2000 = .ok (1000, st2) :=
  c2_release_on_create_failure [] envCreateFail [] reqMissingBoth "fs-1" "" (-1)
    1000 2000 1000 [("fs-1", [1000])] .other
    (by decide) (by decide) (by decide) (by rfl) (by rfl) (by rfl) (by rfl) (by rfl)
    (by rfl) (fun n o => rfl)

/-- C3 counterexample: for a request that supplies a gid but no uid — so
at least one of {uid, gid} is not supplied — no integer is acquired from
the identity allocator at all: the call fails at validation (the
gid-branch uid-variable check) before reaching the allocation step,
refuting the claim that exactly one integer is acquired whenever at least
one of uid/gid is missing. -/
theorem c3_counterexample :
    lookupParam reqGidOnly.params Uid = none ∧
    acquireEvents (provision [] envOk [] reqGidOnly).2.2 = [] ∧
    (provision [] envOk [] reqGidOnly).1 =
      .error (.invalidArgument "gid must be greater or equal than 0") :=
  ⟨rfl, rfl, rfl⟩

/-- C3 (amended): for requests that pass the uid/gid validation step, if
uid or gid was missing exactly one integer is acquired from the allocator
and fills whichever fields were missing (the same single integer fills
both when both are missing), and when both were supplied no acquire call
is made; a request supplying gid without uid fails validation and acquires
nothing. -/
theorem c3_single_allocation :
    (∀ (ptags : List (String × String)) (env : APEnv) (st : AllocState)
        (req : CreateVolumeRequest) (fsv roleArn : String) (gmin gmax g : Int)
        (st1 : AllocState),
      ¬ req.name = "" →
      lookupParam req.params FsId = some fsv →
      isBlank fsv = false →
      lookupParam req.params Uid = none →
      lookupParam req.params Gid = none →
      parseGidRange req.params = .ok (gmin, gmax) →
      getCloudRole req.secrets env.newCloudWithRoleOk = .ok roleArn →
      env.describeFileSystem fsv = .ok () →
      getNextGid st fsv gmin gmax = .ok (g, st1) →
      acquireEvents (provision ptags env st req).2.2 = [Event.acquire fsv gmin gmax g] ∧
      ∃ opts, Event.createAp req.name opts ∈ (provision ptags env st req).2.2 ∧
        opts.uid = g ∧ opts.gid = g) ∧
    (∀ (ptags : List (String × String)) (env : APEnv) (st : AllocState)
        (req : CreateVolumeRequest) (fsv roleArn : String) (u gmin gmax g : Int)
        (st1 : AllocState),
      ¬ req.name = "" →
      lookupParam req.params FsId = some fsv →
      isBlank fsv = false →
      parseUid req.params = .ok u → 0 ≤ u →
      lookupParam req.params Gid = none →
      parseGidRange req.params = .ok (gmin, gmax) →
      getCloudRole req.secrets env.newCloudWithRoleOk = .ok roleArn →
      env.describeFileSystem fsv = .ok () →
      getNextGid st fsv gmin gmax = .ok (g, st1) →
      acquireEvents (provision ptags env st req).2.2 = [Event.acquire fsv gmin gmax g] ∧
      ∃ opts, Event.createAp req.name opts ∈ (provision ptags env st req).2.2 ∧
        opts.uid = u ∧ opts.gid = g) ∧
    (∀ (ptags : List (String × String)) (env : APEnv) (st : AllocState)
        (req : CreateVolumeRequest) (u g0 : Int),
      parseUid req.params = .ok u → ¬ u = -1 →
      parseGid req.params u = .ok g0 → ¬ g0 = -1 →
      acquireEvents (provision ptags env st req).2.2 = []) := by
  refine ⟨?_, ?_, ?_⟩
  · intro ptags env st req fsv roleArn gmin gmax g st1
      hname hfs hblank huid hgid hrange hcloud hdesc halloc
    have hpuid : parseUid req.params = .ok (-1) := by rw [parseUid, huid]
    have hpgid : parseGid req.params (-1) = .ok (-1) := by rw [parseGid, hgid]
    simp only [provision, hname, hfs, hblank, hpuid, hpgid, hrange, hcloud, hdesc, halloc]
    cases hc : env.createAccessPoint req.name
        { capacityGiB := req.capacity, fileSystemId := fsv, uid := g, gid := g,
          directoryPerms := (lookupParam req.params DirectoryPerms).getD "",
          directoryPath := (lookupParam req.params BasePath).getD "" ++ "/" ++ req.name,
          tags := mergeTags [(DefaultTagKey, DefaultTagValue)] ptags } with
    | error ce => simp [hc, acquireEvents]
    | ok apId => simp [hc, acquireEvents]
  · intro ptags env st req fsv roleArn u gmin gmax g st1
      hname hfs hblank hpuid hu hgid hrange hcloud hdesc halloc
    have hpgid : parseGid req.params u = .ok (-1) := by rw [parseGid, hgid]
    have hne : ¬ u = -1 := by omega
    simp only [provision, hname, hfs, hblank, hpuid, hpgid, hrange, hcloud, hdesc,
      halloc, hne]
    cases hc : env.createAccessPoint req.name
        { capacityGiB := req.capacity, fileSystemId := fsv, uid := u, gid := g,
          directoryPerms := (lookupParam req.params DirectoryPerms).getD "",
          directoryPath := (lookupParam req.params BasePath).getD "" ++ "/" ++ req.name,
          tags := mergeTags [(DefaultTagKey, DefaultTagValue)] ptags } with
    | error ce => simp [hc, acquireEvents]
    | ok apId => simp [hc, acquireEvents]
  · intro ptags env st req u g0 hpuid hu hpgid hg0
    simp only [provision, hpuid, hpgid, hu, hg0]
    split
    · simp [acquireEvents]
    · split
      · simp [acquireEvents]
      · split
        · simp [acquireEvents]
        · split
          · simp [acquireEvents]
          · split
            · simp [acquireEvents]
            · split
              · simp [acquireEvents]
              · simp only [hu, hg0, or_self, if_false]
                split
                · simp [acquireEvents]
                · split <;> simp [acquireEvents]

/-- C3 witness: the three allocation laws at concrete inputs — both
missing allocates `1000` for uid and gid, uid `77` with gid missing
allocates `1000` for the gid only, and uid `0` with gid `-5` acquires
nothing. -/
theorem c3_single_allocation_witness :
    (acquireEvents (provision [] envOk [] reqMissingBoth).2.2 =
       [Event.acquire "fs-1" 1000 2000 1000] ∧
     ∃ opts, Event.createAp "vol" opts ∈ (provision [] envOk [] reqMissingBoth).2.2 ∧
       opts.uid = 1000 ∧ opts.gid = 1000) ∧
    (∃ opts, Event.createAp "vol" opts ∈ (provision [] envOk [] reqUidOnly).2.2 ∧
       opts.uid = 77 ∧ opts.gid = 1000) ∧
    acquireEvents (provision [] envOk [] reqUidNegGid).2.2 = [] :=
  ⟨c3_single_allocation.1 [] envOk [] reqMissingBoth "fs-1" "" 1000 2000 1000
      [("fs-1", [1000])] (by decide) (by rfl) (by rfl) (by rfl) (by rfl) (by rfl)
      (by rfl) (by rfl) (by rfl),
   (c3_single_allocation.2.1 [] envOk [] reqUidOnly "fs-1" "" 77 1000 2000 1000
      [("fs-1", [1000])] (by decide) (by rfl) (by rfl) (by rfl) (by decide) (by rfl)
      (by rfl) (by rfl) (by rfl) (by rfl)).2,
   c3_single_allocation.2.2 [] envOk [] reqUidNegGid 0 (-5)
      (by rfl) (by decide) (by rfl) (by decide)⟩

/-- C4: two serialized acquires for the same filesystem id (the second
while the first id is still held — the mutex-serialized rendering of two
concurrent acquires) never return the same integer, and for every
sequence of acquire/release operations on one filesystem id the held set
stays a duplicate-free subset of `[gidMin, gidMax]`. -/
theorem c4_allocator_invariants :
    (∀ (st : AllocState) (f : String) (a b g : Int) (st1 : AllocState)
        (c d g' : Int) (st2 : AllocState),
      getNextGid st f a b = .ok (g, st1) →
      getNextGid st1 f c d = .ok (g', st2) → g' ≠ g) ∧
    (∀ (f : String) (gmin gmax : Int) (ops : List AllocOp),
      (lookupFs (runOps f gmin gmax ops []) f).Nodup ∧
      ∀ x ∈ lookupFs (runOps f gmin gmax ops []) f, gmin ≤ x ∧ x ≤ gmax) := by
  constructor
  · intro st f a b g st1 c d g' st2 h1 h2
    obtain ⟨_, hst1, _, _⟩ := getNextGid_ok h1
    obtain ⟨hnm2, _, _, _⟩ := getNextGid_ok h2
    subst hst1
    rw [lookupFs_setFs] at hnm2
    intro he
    exact hnm2 (he ▸ List.mem_cons_self g _)
  · intro f gmin gmax ops
    exact runOps_inv f gmin gmax ops [] (by constructor) (by intro x hx; cases hx)

/-- C4 witness: on a fresh ledger with range `[1, 2]` the first acquire
returns `1`, the second returns `2 ≠ 1`; the held set after an
acquire/acquire/release sequence is duplicate-free. -/
theorem c4_allocator_invariants_witness :
    (2 : Int) ≠ 1 ∧
    (lookupFs (runOps "fs-1" 1 2
        [AllocOp.acquire, AllocOp.acquire, AllocOp.release 1] []) "fs-1").Nodup :=
  ⟨c4_allocator_invariants.1 [] "fs-1" 1 2 1 [("fs-1", [1])] 1 2 2 [("fs-1", [2, 1])]
      (by rfl) (by rfl),
   (c4_allocator_invariants.2 "fs-1" 1 2
      [AllocOp.acquire, AllocOp.acquire, AllocOp.release 1]).1⟩

/-- C5 counterexample: in directory `Provision`, with the mount succeeding
and the directory-creation step failing, the routine returns the error
immediately — no unmount and no removal of the temporary mount-point is
attempted — refuting the claim that cleanup is attempted whenever the
mount succeeded, even on directory-creation failure. -/
theorem c5_counterexample :
    (dirProvision dirEnvMkdirFail dirReq 1000 1000).1 = .error .internal ∧
    DirEvent.mount "fs-1" "/var/lib/csi/pv/tmp" ∈
      (dirProvision dirEnvMkdirFail dirReq 1000 1000).2 ∧
    DirEvent.unmount "/var/lib/csi/pv/tmp" ∉
      (dirProvision dirEnvMkdirFail dirReq 1000 1000).2 ∧
    DirEvent.removeAll "/var/lib/csi/pv/tmp" ∉
      (dirProvision dirEnvMkdirFail dirReq 1000 1000).2 :=
  ⟨rfl, by decide, by decide, by decide⟩

/-- C5 (amended): in directory `Provision`, a mount failure aborts before
any directory work; when the mount succeeded and directory creation
failed, the routine returns the error immediately without attempting the
unmount or the mount-point removal; only when directory creation succeeded
is the unmount attempted, and the mount-point removal is attempted once
the unmount succeeded. -/
theorem c5_cleanup_on_success_only
    (env : DirEnv) (req : CreateVolumeRequest) (uid gid : Int)
    (fsv roleArn : String) (mo : List String)
    (hfs : lookupParam req.params FsId = some fsv)
    (hblank : isBlank fsv = false)
    (hcloud : getCloudRole req.secrets env.roleCloudOk = .ok roleArn)
    (hmo : env.mountOptionsResult = .ok mo)
    (hmk : env.makeDirOk (TempMountPathPrefix ++ "/" ++ env.uuid) = true) :
    (env.mountOk fsv (TempMountPathPrefix ++ "/" ++ env.uuid) = false →
      (dirProvision env req uid gid).1 = .error .internal ∧
      (dirProvision env req uid gid).2 =
        [DirEvent.makeDir (TempMountPathPrefix ++ "/" ++ env.uuid),
         DirEvent.mount fsv (TempMountPathPrefix ++ "/" ++ env.uuid)]) ∧
    (env.mountOk fsv (TempMountPathPrefix ++ "/" ++ env.uuid) = true →
      env.mkdirAllOk (pathJoin (TempMountPathPrefix ++ "/" ++ env.uuid)
          ((lookupParam req.params BasePath).getD "" ++ "/" ++ req.name)) = false →
      (dirProvision env req uid gid).1 = .error .internal ∧
      DirEvent.unmount (TempMountPathPrefix ++ "/" ++ env.uuid) ∉
        (dirProvision env req uid gid).2 ∧
      DirEvent.removeAll (TempMountPathPrefix ++ "/" ++ env.uuid) ∉
        (dirProvision env req uid gid).2) ∧
    (env.mountOk fsv (TempMountPathPrefix ++ "/" ++ env.uuid) = true →
      env.mkdirAllOk (pathJoin (TempMountPathPrefix ++ "/" ++ env.uuid)
          ((lookupParam req.params BasePath).getD "" ++ "/" ++ req.name)) = true →
      DirEvent.unmount (TempMountPathPrefix ++ "/" ++ env.uuid) ∈
        (dirProvision env req uid gid).2 ∧
      (env.unmountOk (TempMountPathPrefix ++ "/" ++ env.uuid) = true →
        DirEvent.removeAll (TempMountPathPrefix ++ "/" ++ env.uuid) ∈
          (dirProvision env req uid gid).2)) := by
  refine ⟨?_, ?_, ?_⟩
  · intro hmount
    simp [dirProvision, hfs, hblank, hcloud, hmo, hmk, hmount]
  · intro hmount hmkdir
    simp [dirProvision, hfs, hblank, hcloud, hmo, hmk, hmount, hmkdir]
  · intro hmount hmkdir
    constructor
    · cases hun : env.unmountOk (TempMountPathPrefix ++ "/" ++ env.uuid) with
      | false =>
        simp [dirProvision, hfs, hblank, hcloud, hmo, hmk, hmount, hmkdir, hun]
      | true =>
        cases hrm : env.removeAllOk (TempMountPathPrefix ++ "/" ++ env.uuid) with
        | false =>
          simp [dirProvision, hfs, hblank, hcloud, hmo, hmk, hmount, hmkdir, hun, hrm]
        | true =>
          simp [dirProvision, hfs, hblank, hcloud, hmo, hmk, hmount, hmkdir, hun, hrm]
    · intro hun
      cases hrm : env.removeAllOk (TempMountPathPrefix ++ "/" ++ env.uuid) with
      | false =>
        simp [dirProvision, hfs, hblank, hcloud, hmo, hmk, hmount, hmkdir, hun, hrm]
      | true =>
        simp [dirProvision, hfs, hblank, hcloud, hmo, hmk, hmount, hmkdir, hun, hrm]

/-- C5 witness: the amended law at concrete oracles — with the
directory-creation step failing no unmount happens, and with everything
succeeding the unmount and the removal both happen. -/
theorem c5_cleanup_on_success_only_witness :
    ((dirProvision dirEnvMkdirFail dirReq 1000 1000).1 = .error .internal ∧
     DirEvent.unmount ("/var/lib/csi/pv" ++ "/" ++ "tmp") ∉
       (dirProvision dirEnvMkdirFail dirReq 1000 1000).2 ∧
     DirEvent.removeAll ("/var/lib/csi/pv" ++ "/" ++ "tmp") ∉
       (dirProvision dirEnvMkdirFail dirReq 1000 1000).2) ∧
    DirEvent.unmount ("/var/lib/csi/pv" ++ "/" ++ "tmp") ∈
      (dirProvision dirEnvOk dirReq 1000 1000).2 :=
  ⟨(c5_cleanup_on_success_only dirEnvMkdirFail dirReq 1000 1000 "fs-1" "" []
      (by rfl) (by rfl) (by rfl) (by rfl) (by rfl)).2.1 (by rfl) (by rfl),
   ((c5_cleanup_on_success_only dirEnvOk dirReq 1000 1000 "fs-1" "" []
      (by rfl) (by rfl) (by rfl) (by rfl) (by rfl)).2.2 (by rfl) (by rfl)).1⟩

/-- C6: in directory `Delete` with `deleteProvisionedDir` set, if the
recursive removal of the provisioned directory under the temporary mount
fails, the deferred cleanups still attempt both the removal of the
mount-point directory and the unmount of the mount-point, and the call
returns an error. -/
theorem c6_delete_cleanup_on_remove_failure
    (env : DirEnv) (volumeId : String) (secrets : List (String × String))
    (fsv subp ap roleArn : String) (mo : List String)
    (hparse : parseVolumeId volumeId = (fsv, subp, ap))
    (hcloud : getCloudRole secrets env.roleCloudOk = .ok roleArn)
    (hmo : env.mountOptionsResult = .ok mo)
    (hmk : env.makeDirOk (TempMountPathPrefix ++ "/" ++ env.uuid) = true)
    (hmount : env.mountOk fsv (TempMountPathPrefix ++ "/" ++ env.uuid) = true)
    (hrm : env.removeAllOk ((TempMountPathPrefix ++ "/" ++ env.uuid) ++ subp) = false) :
    (∃ e, (dirDelete true env volumeId secrets).1 = .error e) ∧
    DirEvent.removeAll (TempMountPathPrefix ++ "/" ++ env.uuid) ∈
      (dirDelete true env volumeId secrets).2 ∧
    DirEvent.unmount (TempMountPathPrefix ++ "/" ++ env.uuid) ∈
      (dirDelete true env volumeId secrets).2 := by
  simp [dirDelete, hparse, hcloud, hmo, hmk, hmount, hrm]

/-- C6 witness: deleting `fs-1:/dynamic/newDir` with the sub-directory
removal failing still removes and unmounts the temporary mount-point and
returns an error. -/
theorem c6_delete_cleanup_on_remove_failure_witness :
    (∃ e, (dirDelete true dirEnvRmSubFail "fs-1:/dynamic/newDir" []).1 = .error e) ∧
    DirEvent.removeAll ("/var/lib/csi/pv" ++ "/" ++ "tmp") ∈
      (dirDelete true dirEnvRmSubFail "fs-1:/dynamic/newDir" []).2 ∧
    DirEvent.unmount ("/var/lib/csi/pv" ++ "/" ++ "tmp") ∈
      (dirDelete true dirEnvRmSubFail "fs-1:/dynamic/newDir" []).2 :=
  c6_delete_cleanup_on_remove_failure dirEnvRmSubFail "fs-1:/dynamic/newDir" []
    "fs-1" "/dynamic/newDir" "" "" [] (by decide) (by rfl) (by rfl) (by rfl)
    (by rfl) (by decide)

end EfsCsi
